import Mathlib

/-!
Shallow embedding of `src/services/ml-service/app/main.py` (AI-Sentinel ML
service): the FastAPI endpoints `predict_disaster` (`POST /api/v1/ml/predict`)
and `analyze_image` (`POST /api/v1/ml/analyze`), together with the module
level `transform` pipeline, the class/severity tables and the Redis cache
write.

External black boxes are passed in as parameters:
  * `decode`  models `Image.open(io.BytesIO(contents)).convert("RGB")`:
    either a decoded RGB image or a decode failure (exception);
  * `runModel` models the frozen `DisasterClassifier` network (its weights
    file is an external artifact): a function from the batched input tensor
    to the 5 raw logits produced by the final `nn.Linear(256, 5)` layer;
  * `expf` stands for the exponential used inside `torch.softmax`
    (softmax itself is embedded by its formula, see `softmaxRow`);
  * `cacheOk` models availability of the Redis store for `setex`;
  * `now` models `datetime.utcnow().isoformat()`.

Numbers are embedded as exact rationals.  Tensor shapes are tracked
explicitly because the behaviour of `probabilities.tolist()` (a 1 x 5
batched tensor, hence a nested Python list) is what decides several claims:
`float(prob)` applied to the inner list raises `TypeError`.
-/

/-- Raw uploaded bytes (`contents = await file.read()`). -/
def ImgBytes := List ℕ

/-- A decoded PIL image.  Pixel content is abstracted: `base` identifies the
decoded source and `hist` records the `(width, height)` arguments of every
`resize` applied to it (most recent first), so that differently resized
images stay distinguishable. -/
structure Image where
  width : ℕ
  height : ℕ
  hist : List (ℕ × ℕ)
  base : ℕ
deriving DecidableEq, Repr

/-- PIL `img.resize((w, h))`: the result has the requested dimensions. -/
def Image.resize (img : Image) (w h : ℕ) : Image :=
  { width := w, height := h, hist := (w, h) :: img.hist, base := img.base }

/-- A CHW image tensor as produced by the torchvision pipeline; `img` is the
(resized) image whose normalized pixels it holds. -/
structure Tensor3 where
  channels : ℕ
  height : ℕ
  width : ℕ
  img : Image
deriving DecidableEq, Repr

/-- Per-channel means of `transforms.Normalize` in `transform`. -/
def norm_mean : List ℚ := [485/1000, 456/1000, 406/1000]

/-- Per-channel standard deviations of `transforms.Normalize` in `transform`. -/
def norm_std : List ℚ := [229/1000, 224/1000, 225/1000]

/-- The module-level `transform = transforms.Compose([Resize((224, 224)),
ToTensor(), Normalize(mean, std)])`.  `Resize((224, 224))` always yields a
224 x 224 image, whatever the input size; `ToTensor` makes a 3 x 224 x 224
tensor; `Normalize` keeps the shape (content is abstracted). -/
def transform (img : Image) : Tensor3 :=
  { channels := 3, height := 224, width := 224, img := img.resize 224 224 }

/-- The batched tensor `transform(image).unsqueeze(0)`: batch size 1. -/
structure BatchTensor where
  batch : ℕ
  t : Tensor3
deriving DecidableEq, Repr

/-- Torch `.unsqueeze(0)`. -/
def unsqueeze0 (t : Tensor3) : BatchTensor := { batch := 1, t := t }

/-- The 5 raw logits of `DisasterClassifier` (`num_classes = 5`, final layer
`nn.Linear(256, 5)`). -/
structure Logits5 where
  v0 : ℚ
  v1 : ℚ
  v2 : ℚ
  v3 : ℚ
  v4 : ℚ
deriving DecidableEq, Repr

/-- The logits as a row of the model output tensor. -/
def Logits5.toList (l : Logits5) : List ℚ := [l.v0, l.v1, l.v2, l.v3, l.v4]

/-- One row of `torch.softmax(output, dim=1)`:
`softmax(x)_i = exp(x_i) / sum_j exp(x_j)`, with `expf` standing for the
exponential. -/
def softmaxRow (expf : ℚ → ℚ) (row : List ℚ) : List ℚ :=
  row.map (fun x => expf x / (row.map expf).sum)

/-- Helper for `torch.argmax` over a flattened tensor: scan of the remaining
entries, carrying the best index, the best value and the current index.
Ties keep the earlier index, as torch does. -/
def idxMaxFrom : List ℚ → ℕ → ℚ → ℕ → ℕ × ℚ
  | [], bi, bv, _ => (bi, bv)
  | x :: xs, bi, bv, i =>
      if bv < x then idxMaxFrom xs i x (i + 1) else idxMaxFrom xs bi bv (i + 1)

/-- Torch `t.argmax().item()` on a flattened nonempty tensor: index of the first
maximal entry (0 on the empty list, which torch would reject). -/
def argmaxFirst : List ℚ → ℕ
  | [] => 0
  | x :: xs => (idxMaxFrom xs 0 x 1).1

/-- Torch `t.max().item()` on a flattened nonempty tensor (0 on the empty list). -/
def maxOfList : List ℚ → ℚ
  | [] => 0
  | x :: xs => xs.foldl max x

/-- A Python value as far as `float(...)` is concerned: a number, or a
(possibly nested) list such as the rows of `Tensor.tolist()`. -/
inductive PyVal
  | num (q : ℚ)
  | lst (l : List PyVal)
deriving Repr

/-- The Python exceptions that can arise in the two endpoint bodies. -/
inductive PyErr
  | typeError
  | indexError
  | keyError
  | decodeError
  | redisError
deriving DecidableEq, Repr

/-- Python `str(e)` for each modelled exception. -/
def PyErr.msg : PyErr → String
  | .typeError => "float argument must be a string or a real number, not list"
  | .indexError => "list index out of range"
  | .keyError => "key error"
  | .decodeError => "cannot identify image file"
  | .redisError => "connection refused"

/-- Python `float(x)`: succeeds on a number, raises `TypeError` on a list. -/
def pyFloat : PyVal → Except PyErr ℚ
  | .num q => .ok q
  | .lst _ => .error .typeError

/-- Python list indexing `l[i]` (nonnegative index): `IndexError` when out of
range. -/
def pyIndex {α : Type} (l : List α) (i : ℕ) : Except PyErr α :=
  match l.get? i with
  | some a => .ok a
  | none => .error .indexError

/-- Python dict lookup `d[k]` for a literal int-keyed dict: `KeyError` when
absent. -/
def pyDictGet (d : List (ℕ × String)) (k : ℕ) : Except PyErr String :=
  match d.find? (fun p => p.1 == k) with
  | some p => .ok p.2
  | none => .error .keyError

/-- Table `CLASS_LABELS` of the source. -/
def CLASS_LABELS : List String :=
  ["No Damage", "Minor Damage", "Major Damage", "Destroyed", "Unknown"]

/-- Table `SEVERITY_MAPPING` of the source. -/
def SEVERITY_MAPPING : List (ℕ × String) :=
  [(0, "low"), (1, "medium"), (2, "high"), (3, "critical"), (4, "unknown")]

/-- Torch `probabilities.tolist()` of a 2-D tensor given as its list of rows: a
nested Python list, one `PyVal.lst` per row. -/
def pyTolist (rows : List (List ℚ)) : List PyVal :=
  rows.map (fun row => PyVal.lst (row.map PyVal.num))

/-- The dict comprehension
`{CLASS_LABELS[i]: float(prob) for i, prob in enumerate(tl)}`,
with `i` starting at `acc`: each step indexes `CLASS_LABELS` and applies
`float` to the enumerated element. -/
def buildProbsFrom : ℕ → List PyVal → Except PyErr (List (String × ℚ))
  | _, [] => .ok []
  | i, v :: vs => do
      let key ← pyIndex CLASS_LABELS i
      let x ← pyFloat v
      let rest ← buildProbsFrom (i + 1) vs
      .ok ((key, x) :: rest)

/-- Decoding `Image.open(io.BytesIO(contents)).convert("RGB")`, with the PIL decoder
passed in as `decode`; a failed decode raises. -/
def pyDecode (decode : ImgBytes → Option Image) (b : ImgBytes) :
    Except PyErr Image :=
  match decode b with
  | some img => .ok img
  | none => .error .decodeError

/-- The JSON response dict built by `predict_disaster` (without the
`class_probabilities` bug the run never gets past, this is its shape). -/
structure Prediction where
  cls : ℕ
  class_name : String
  severity : String
  confidence : ℚ
  class_probabilities : List (String × ℚ)
  timestamp : String
deriving DecidableEq, Repr

/-- One entry written by `redis_client.setex(cache_key, 3600, json.dumps(prediction))`. -/
structure CacheWrite where
  key : String
  ttl : ℕ
  value : String
deriving DecidableEq, Repr

/-- Serialization `json.dumps(prediction)` (rationals are printed with `toString`). -/
def jsonDumps (p : Prediction) : String :=
  "\x7b\"class\": " ++ toString p.cls ++
  ", \"class_name\": \"" ++ p.class_name ++
  "\", \"severity\": \"" ++ p.severity ++
  "\", \"confidence\": " ++ toString p.confidence ++
  ", \"class_probabilities\": " ++
    String.intercalate (", ")
      (p.class_probabilities.map (fun kv => "\"" ++ kv.1 ++ "\": " ++ toString kv.2)) ++
  ", \"timestamp\": \"" ++ p.timestamp ++ "\"\x7d"

/-- Redis `setex(key, ttl, value)`: performs the write when the store
is up, raises otherwise. -/
def setex (cacheOk : Bool) (key : String) (ttl : ℕ) (value : String) :
    Except PyErr (List CacheWrite) :=
  if cacheOk then .ok [{ key := key, ttl := ttl, value := value }] else .error .redisError

/-- The `HTTPException(status_code=400, detail=str(e))` raised by the
`except` clause of each endpoint. -/
structure HTTPErr where
  status : ℕ
  detail : String
deriving DecidableEq, Repr

/-- Status code of an errored response, `none` on success. -/
def httpStatus {α : Type} : Except HTTPErr α → Option ℕ
  | .error e => some e.status
  | .ok _ => none

/-- Body of the `try` block of `predict_disaster`, after decoding: tensorize
at the fixed 224 resolution, run the model on the batch of one, softmax the
1 x 5 output, take argmax/max, build the response dict (class name and
severity lookups, then the per-class probability comprehension over
`probabilities.tolist()`), then the cache write.  Returns the response
together with the cache writes performed. -/
def predict_core (runModel : BatchTensor → Logits5) (expf : ℚ → ℚ)
    (cacheOk : Bool) (now filename : String) (image : Image) :
    Except PyErr (Prediction × List CacheWrite) :=
  let tensor := transform image
  let bt := unsqueeze0 tensor
  let output : List (List ℚ) := [(runModel bt).toList]
  let probabilities := output.map (softmaxRow expf)
  let flat := probabilities.flatten
  let predicted_class := argmaxFirst flat
  let confidence := maxOfList flat
  (pyIndex CLASS_LABELS predicted_class).bind fun class_name =>
  (pyDictGet SEVERITY_MAPPING predicted_class).bind fun severity =>
  (buildProbsFrom 0 (pyTolist probabilities)).bind fun class_probabilities =>
  let prediction : Prediction :=
    { cls := predicted_class, class_name := class_name, severity := severity,
      confidence := confidence, class_probabilities := class_probabilities,
      timestamp := now }
  let cache_key := "prediction:" ++ filename
  (setex cacheOk cache_key 3600 (jsonDumps prediction)).bind fun writes =>
  .ok (prediction, writes)

/-- The whole `try` block of `predict_disaster`: decode, then `predict_core`. -/
def predict_body (decode : ImgBytes → Option Image)
    (runModel : BatchTensor → Logits5) (expf : ℚ → ℚ) (cacheOk : Bool)
    (now filename : String) (contents : ImgBytes) :
    Except PyErr (Prediction × List CacheWrite) :=
  (pyDecode decode contents).bind (predict_core runModel expf cacheOk now filename)

/-- Endpoint `predict_disaster`: the `try` body, with any exception converted by the
`except` clause into `HTTPException(400, str(e))`.  The second component is
the list of cache entries actually written. -/
def predict_disaster (decode : ImgBytes → Option Image)
    (runModel : BatchTensor → Logits5) (expf : ℚ → ℚ) (cacheOk : Bool)
    (now filename : String) (contents : ImgBytes) :
    Except HTTPErr Prediction × List CacheWrite :=
  match predict_body decode runModel expf cacheOk now filename contents with
  | .ok (p, ws) => (.ok p, ws)
  | .error e => (.error { status := 400, detail := e.msg }, [])

/-- The fixed scale list `scales = [224, 256, 384]` of `analyze_image`. -/
def scales : List ℕ := [224, 256, 384]

/-- Per-scale input construction in the loop of `analyze_image`:
`resized = image.resize((scale, scale)); tensor = transform(resized)`. -/
def scaleInput (image : Image) (scale : ℕ) : Tensor3 :=
  transform (image.resize scale scale)

/-- One per-scale entry of the `results` list of `analyze_image`. -/
structure ScaleResult where
  scale : ℕ
  predictions : List (String × ℚ)
deriving DecidableEq, Repr

/-- The loop `for scale in scales:` of `analyze_image`: per scale, build the
input tensor, run the model, softmax, and build the per-class probability
dict over `probabilities.tolist()`. -/
def analyzeScales (runModel : BatchTensor → Logits5) (expf : ℚ → ℚ)
    (image : Image) : List ℕ → Except PyErr (List ScaleResult)
  | [] => .ok []
  | scale :: rest =>
      let tensor := scaleInput image scale
      let output : List (List ℚ) := [(runModel (unsqueeze0 tensor)).toList]
      let probabilities := output.map (softmaxRow expf)
      (buildProbsFrom 0 (pyTolist probabilities)).bind fun preds =>
      (analyzeScales runModel expf image rest).bind fun restR =>
      .ok ({ scale := scale, predictions := preds } :: restR)

/-- Aggregation `np.mean([r["predictions"] for r in results], axis=0)`: the elements are
Python dicts, `numpy` builds an object array and its reduction adds the
dicts, which raises `TypeError` (dicts do not support `+`). -/
def npMeanDicts (_ : List (List (String × ℚ))) : Except PyErr (List ℚ) :=
  .error .typeError

/-- The `ensemble_prediction` dict of `analyze_image`. -/
structure EnsemblePrediction where
  cls : ℕ
  class_name : String
  confidence : ℚ
deriving DecidableEq, Repr

/-- The success response of `analyze_image`. -/
structure AnalyzeSuccess where
  analysis : List ScaleResult
  ensemble_prediction : EnsemblePrediction
deriving DecidableEq, Repr

/-- The whole `try` block of `analyze_image`: decode, the per-scale loop,
the `np.mean` aggregation, `np.argmax`, and the ensemble response dict. -/
def analyze_body (decode : ImgBytes → Option Image)
    (runModel : BatchTensor → Logits5) (expf : ℚ → ℚ) (contents : ImgBytes) :
    Except PyErr AnalyzeSuccess :=
  (pyDecode decode contents).bind fun image =>
  (analyzeScales runModel expf image scales).bind fun results =>
  (npMeanDicts (results.map (fun r => r.predictions))).bind fun ensemble_probs =>
  let predicted_class := argmaxFirst ensemble_probs
  (pyIndex CLASS_LABELS predicted_class).bind fun class_name =>
  (pyIndex ensemble_probs predicted_class).bind fun confidence =>
  .ok { analysis := results,
        ensemble_prediction :=
          { cls := predicted_class, class_name := class_name, confidence := confidence } }

/-- Endpoint `analyze_image`: the `try` body, with any exception converted by the
`except` clause into `HTTPException(400, str(e))`. -/
def analyze_image (decode : ImgBytes → Option Image)
    (runModel : BatchTensor → Logits5) (expf : ℚ → ℚ) (contents : ImgBytes) :
    Except HTTPErr AnalyzeSuccess :=
  match analyze_body decode runModel expf contents with
  | .ok r => .ok r
  | .error e => .error { status := 400, detail := e.msg }

/-- A decoder that accepts everything (stands for any valid decodable image). -/
def decodeAny : ImgBytes → Option Image :=
  fun _ => some { width := 224, height := 224, hist := [], base := 0 }

/-- A decoder that rejects everything (malformed bytes). -/
def decodeNone : ImgBytes → Option Image := fun _ => none

/-- A concrete model instance: all logits zero. -/
def zeroLogits : BatchTensor → Logits5 := fun _ => ⟨0, 0, 0, 0, 0⟩

/-- A concrete stand-in for the exponential. -/
def oneExp : ℚ → ℚ := fun _ => 1

/-! ## Helper lemmas -/

theorem pyIndex_ok {α : Type} (l : List α) (i : ℕ) (h : i < l.length) :
    ∃ a, pyIndex l i = .ok a := by
  rcases hg : l.get? i with _ | a
  · rw [List.get?_eq_none] at hg; omega
  · exact ⟨a, by unfold pyIndex; rw [hg]⟩

theorem severity_ok (k : ℕ) (h : k < 5) :
    ∃ s, pyDictGet SEVERITY_MAPPING k = .ok s := by
  interval_cases k <;> exact ⟨_, rfl⟩

theorem idxMaxFrom_fst_lt :
    ∀ (xs : List ℚ) (bi : ℕ) (bv : ℚ) (i : ℕ), bi < i →
      (idxMaxFrom xs bi bv i).1 < i + xs.length := by
  intro xs
  induction xs with
  | nil => intro bi bv i h; simpa [idxMaxFrom] using h
  | cons x xs ih =>
    intro bi bv i h
    rw [idxMaxFrom]
    simp only [List.length_cons]
    split
    · have hh := ih i x (i + 1) (Nat.lt_succ_self i)
      omega
    · have hh := ih bi bv (i + 1) (by omega)
      omega

theorem argmaxFirst_lt (l : List ℚ) (h : l ≠ []) : argmaxFirst l < l.length := by
  cases l with
  | nil => exact absurd rfl h
  | cons x xs =>
    rw [argmaxFirst]
    have hh := idxMaxFrom_fst_lt xs 0 x 1 Nat.zero_lt_one
    simp only [List.length_cons]
    omega

theorem buildProbsFrom_lst (x : List PyVal) (vs : List PyVal) :
    buildProbsFrom 0 (PyVal.lst x :: vs) = .error .typeError := rfl

theorem predict_core_fails (runModel : BatchTensor → Logits5) (expf : ℚ → ℚ)
    (cacheOk : Bool) (now filename : String) (image : Image) :
    predict_core runModel expf cacheOk now filename image = .error .typeError := by
  simp only [predict_core]
  generalize hrow : (runModel (unsqueeze0 (transform image))).toList = row
  have hlen : row.length = 5 := by rw [← hrow]; rfl
  have hflat : ((List.map (softmaxRow expf) [row]).flatten).length = 5 := by
    simp [softmaxRow, hlen]
  have hne : (List.map (softmaxRow expf) [row]).flatten ≠ [] := by
    intro hh
    rw [hh] at hflat
    simp at hflat
  have hlt : argmaxFirst ((List.map (softmaxRow expf) [row]).flatten) < 5 := by
    have hh := argmaxFirst_lt _ hne
    rw [hflat] at hh
    exact hh
  obtain ⟨cn, hcn⟩ := pyIndex_ok CLASS_LABELS
    (argmaxFirst ((List.map (softmaxRow expf) [row]).flatten)) hlt
  obtain ⟨sv, hsv⟩ := severity_ok
    (argmaxFirst ((List.map (softmaxRow expf) [row]).flatten)) hlt
  rw [hcn]
  simp only [Except.bind]
  rw [hsv]
  simp only [Except.bind]
  have hbp : buildProbsFrom 0 (pyTolist (List.map (softmaxRow expf) [row]))
      = .error .typeError := rfl
  rw [hbp]

theorem predict_body_some (decode : ImgBytes → Option Image)
    (runModel : BatchTensor → Logits5) (expf : ℚ → ℚ) (cacheOk : Bool)
    (now filename : String) (contents : ImgBytes) (img : Image)
    (h : decode contents = some img) :
    predict_body decode runModel expf cacheOk now filename contents
      = .error .typeError := by
  simp only [predict_body, pyDecode, h, Except.bind]
  exact predict_core_fails runModel expf cacheOk now filename img

theorem predict_body_none (decode : ImgBytes → Option Image)
    (runModel : BatchTensor → Logits5) (expf : ℚ → ℚ) (cacheOk : Bool)
    (now filename : String) (contents : ImgBytes)
    (h : decode contents = none) :
    predict_body decode runModel expf cacheOk now filename contents
      = .error .decodeError := by
  simp only [predict_body, pyDecode, h, Except.bind]

theorem analyze_body_some (decode : ImgBytes → Option Image)
    (runModel : BatchTensor → Logits5) (expf : ℚ → ℚ) (contents : ImgBytes)
    (img : Image) (h : decode contents = some img) :
    analyze_body decode runModel expf contents = .error .typeError := by
  simp only [analyze_body, pyDecode, h, Except.bind]
  rfl

theorem analyze_body_none (decode : ImgBytes → Option Image)
    (runModel : BatchTensor → Logits5) (expf : ℚ → ℚ) (contents : ImgBytes)
    (h : decode contents = none) :
    analyze_body decode runModel expf contents = .error .decodeError := by
  simp only [analyze_body, pyDecode, h, Except.bind]

theorem predict_disaster_of_body_error (decode : ImgBytes → Option Image)
    (runModel : BatchTensor → Logits5) (expf : ℚ → ℚ) (cacheOk : Bool)
    (now filename : String) (contents : ImgBytes) (e : PyErr)
    (hb : predict_body decode runModel expf cacheOk now filename contents = .error e) :
    predict_disaster decode runModel expf cacheOk now filename contents
      = (.error { status := 400, detail := e.msg }, []) := by
  simp only [predict_disaster, hb]

theorem analyze_image_of_body_error (decode : ImgBytes → Option Image)
    (runModel : BatchTensor → Logits5) (expf : ℚ → ℚ) (contents : ImgBytes)
    (e : PyErr)
    (hb : analyze_body decode runModel expf contents = .error e) :
    analyze_image decode runModel expf contents
      = .error { status := 400, detail := e.msg } := by
  simp only [analyze_image, hb]

/-! ## Claim theorems -/

/-- Claim C5: for every input, decodable or not, and every choice of the
external black boxes (decoder, model weights, exponential, cache
availability, clock), both `predict_disaster` and `analyze_image` end with
an HTTP 400 error and never a success response: the per-class probability
dict comprehension enumerates `probabilities.tolist()` of the 1 x 5 batched
tensor, so `float` hits the inner list and raises `TypeError`, which the
`except` clause turns into `HTTPException(400)`; a failed decode reaches
the same clause. -/
theorem predict_analyze_always_400 (decode : ImgBytes → Option Image)
    (runModel : BatchTensor → Logits5) (expf : ℚ → ℚ) (cacheOk : Bool)
    (now filename : String) (contents : ImgBytes) :
    httpStatus (predict_disaster decode runModel expf cacheOk now filename contents).1
      = some 400 ∧
    httpStatus (analyze_image decode runModel expf contents) = some 400 := by
  constructor
  · cases h : decode contents with
    | none =>
        rw [predict_disaster_of_body_error decode runModel expf cacheOk now filename
          contents .decodeError
          (predict_body_none decode runModel expf cacheOk now filename contents h)]
        rfl
    | some img =>
        rw [predict_disaster_of_body_error decode runModel expf cacheOk now filename
          contents .typeError
          (predict_body_some decode runModel expf cacheOk now filename contents img h)]
        rfl
  · cases h : decode contents with
    | none =>
        rw [analyze_image_of_body_error decode runModel expf contents .decodeError
          (analyze_body_none decode runModel expf contents h)]
        rfl
    | some img =>
        rw [analyze_image_of_body_error decode runModel expf contents .typeError
          (analyze_body_some decode runModel expf contents img h)]
        rfl

unseal Rat.mul Rat.inv Rat.add in
/-- Claim C1 (code bug): at a concrete valid, decodable image, `predict`
does not return any class-probability vector at all: it fails with HTTP
400, because `float` is applied to the inner 5-element list of
`probabilities.tolist()`.  The simplex property of the softmax output is
therefore never surfaced by the endpoint. -/
theorem predict_valid_image_returns_400 :
    httpStatus (predict_disaster decodeAny zeroLogits oneExp true
      ("2025-01-01T00:00:00") ("valid.jpg") [0, 1, 2]).1 = some 400 := by
  decide

unseal Rat.mul Rat.inv Rat.add in
/-- Claim C2 (code bug): at a concrete valid image, `predict` yields no
successful invocation whose `confidence` could be compared with
`class_probabilities`: the call ends in `HTTPException(400)` raised from
the `TypeError` of the response-dict construction. -/
theorem predict_confidence_unwitnessable :
    (predict_disaster decodeAny zeroLogits oneExp true ("t2") ("c2.jpg") [2]).1
      = Except.error { status := 400, detail := PyErr.typeError.msg } := by
  rfl

/-- Claim C3 (code bug): at a concrete valid image, `analyze` never reaches
the ensemble aggregation: the per-scale loop raises `TypeError` at its
first iteration (again `float` of the inner list of the 1 x 5
`probabilities.tolist()`), so no mean vector, no argmax and no ensemble
confidence are ever computed and the call returns HTTP 400. -/
theorem analyze_never_builds_ensemble :
    analyze_image decodeAny zeroLogits oneExp [3, 3]
      = Except.error { status := 400, detail := PyErr.typeError.msg } := by
  rfl

/-- Claim C4 (code bug): at a concrete valid image, `analyze` produces no
scale observation at all, rather than the 3 claimed ones: the loop body
fails already at scale 224 and the whole request ends with HTTP 400. -/
theorem analyze_no_scale_observations :
    httpStatus (analyze_image decodeAny zeroLogits oneExp [4]) = some 400 := by
  rfl

unseal Rat.mul Rat.inv Rat.add in
/-- Claim C6, counterexample: a concrete input on which preprocessing and
inference succeed (the decoder accepts, the model runs) while the cache
store is down; the claim says the request still returns the
PredictionResult successfully, but it ends with HTTP 400 (the response
construction raises before any cache interaction, and no cache-specific
exception handling exists). -/
theorem cache_failure_request_fails_cex :
    httpStatus (predict_disaster decodeAny zeroLogits oneExp false ("t6") ("c6.jpg") [6]).1
      = some 400 := by
  decide

/-- Claim C6 (amended): for every input on which preprocessing and
inference succeed, the predict request fails with HTTP 400 whatever the
cache availability, and no cache entry is written; cache failures are not
swallowed — the cache write sits inside the same `try` whose `except`
converts any exception into `HTTPException(400)`, and it is in fact never
reached. -/
theorem predict_fails_and_never_writes_cache (decode : ImgBytes → Option Image)
    (runModel : BatchTensor → Logits5) (expf : ℚ → ℚ) (cacheOk : Bool)
    (now filename : String) (contents : ImgBytes) (img : Image)
    (h : decode contents = some img) :
    httpStatus (predict_disaster decode runModel expf cacheOk now filename contents).1
      = some 400 ∧
    (predict_disaster decode runModel expf cacheOk now filename contents).2 = [] := by
  rw [predict_disaster_of_body_error decode runModel expf cacheOk now filename
    contents .typeError
    (predict_body_some decode runModel expf cacheOk now filename contents img h)]
  exact ⟨rfl, rfl⟩

theorem predict_fails_and_never_writes_cache_witness :
    httpStatus (predict_disaster decodeAny zeroLogits oneExp false ("t6w") ("w.jpg") [6, 6]).1
      = some 400 ∧
    (predict_disaster decodeAny zeroLogits oneExp false ("t6w") ("w.jpg") [6, 6]).2 = [] :=
  predict_fails_and_never_writes_cache decodeAny zeroLogits oneExp false ("t6w") ("w.jpg")
    [6, 6] { width := 224, height := 224, hist := [], base := 0 } rfl

unseal Rat.mul Rat.inv Rat.add in
/-- Claim C7 (code bug): at a concrete valid image with the cache store
available, `predict` writes no cache entry at all (and fails with HTTP
400): the `setex` call with key `"prediction:" + filename` and TTL 3600 is
dead code behind the `TypeError` of the response construction. -/
theorem predict_writes_no_cache_entry :
    (predict_disaster decodeAny zeroLogits oneExp true ("t7") ("c7.jpg") [7]).2 = [] ∧
    httpStatus (predict_disaster decodeAny zeroLogits oneExp true ("t7") ("c7.jpg") [7]).1
      = some 400 := by
  decide

/-- Claim C8: for every malformed input (bytes the decoder rejects), both
`predict` and `analyze` fail with the client-facing 400 error carrying the
decode exception message, and no unhandled exception escapes. -/
theorem malformed_input_client_error (decode : ImgBytes → Option Image)
    (runModel : BatchTensor → Logits5) (expf : ℚ → ℚ) (cacheOk : Bool)
    (now filename : String) (contents : ImgBytes)
    (h : decode contents = none) :
    (predict_disaster decode runModel expf cacheOk now filename contents).1
      = Except.error { status := 400, detail := PyErr.decodeError.msg } ∧
    analyze_image decode runModel expf contents
      = Except.error { status := 400, detail := PyErr.decodeError.msg } ∧
    PyErr.decodeError.msg ≠ "" := by
  refine ⟨?_, ?_, by decide⟩
  · rw [predict_disaster_of_body_error decode runModel expf cacheOk now filename
      contents .decodeError
      (predict_body_none decode runModel expf cacheOk now filename contents h)]
  · rw [analyze_image_of_body_error decode runModel expf contents .decodeError
      (analyze_body_none decode runModel expf contents h)]

theorem malformed_input_client_error_witness :
    (predict_disaster decodeNone zeroLogits oneExp true ("tw") ("bad.bin") [255]).1
      = Except.error { status := 400, detail := PyErr.decodeError.msg } ∧
    analyze_image decodeNone zeroLogits oneExp [255]
      = Except.error { status := 400, detail := PyErr.decodeError.msg } ∧
    PyErr.decodeError.msg ≠ "" :=
  malformed_input_client_error decodeNone zeroLogits oneExp true ("tw") ("bad.bin")
    [255] rfl

unseal Rat.mul Rat.inv Rat.add in
/-- Claim C9 (code bug): two calls of `predict` with identical bytes and
identical filename (only the timestamps differ) yield no pair of
PredictionResults whose fields could be compared: both calls fail with
HTTP 400. -/
theorem predict_twice_no_results :
    httpStatus (predict_disaster decodeAny zeroLogits oneExp true ("t9a") ("same.jpg") [9, 9]).1
      = some 400 ∧
    httpStatus (predict_disaster decodeAny zeroLogits oneExp true ("t9b") ("same.jpg") [9, 9]).1
      = some 400 := by
  decide

/-- Claim C10, counterexample: for a concrete 500 x 500 decoded image at
scale 384, the tensor handed to the model by `analyze` has spatial size
224 x 224, not 384 x 384: the shared `transform` begins with
`Resize((224, 224))`, so the inference input is not produced at the
requested resolution. -/
theorem scale_input_not_requested_resolution :
    (scaleInput { width := 500, height := 500, hist := [], base := 0 } 384).height = 224 ∧
    (scaleInput { width := 500, height := 500, hist := [], base := 0 } 384).width = 224 ∧
    (scaleInput { width := 500, height := 500, hist := [], base := 0 } 384).height ≠ 384 := by
  decide

/-- Claim C10 (amended): for every decoded image and every scale the
ensemble analyzer uses (224, 256, 384), `analyze` first resizes the image
to `scale x scale`, but the shared `transform` then resizes that result to
224 x 224, so the model input at every scale has spatial size 224 x 224;
the pipeline is not resolution-parametric at the model input. -/
theorem scale_input_always_224 (image : Image) (scale : ℕ)
    (_h : scale ∈ scales) :
    (scaleInput image scale).height = 224 ∧
    (scaleInput image scale).width = 224 ∧
    (scaleInput image scale).img = (image.resize scale scale).resize 224 224 := by
  exact ⟨rfl, rfl, rfl⟩

theorem scale_input_always_224_witness :
    (scaleInput { width := 10, height := 20, hist := [], base := 7 } 256).height = 224 ∧
    (scaleInput { width := 10, height := 20, hist := [], base := 7 } 256).width = 224 ∧
    (scaleInput { width := 10, height := 20, hist := [], base := 7 } 256).img
      = (Image.resize { width := 10, height := 20, hist := [], base := 7 } 256 256).resize
          224 224 :=
  scale_input_always_224 { width := 10, height := 20, hist := [], base := 7 } 256
    (by decide)
